import Mathlib

/-!
Verification development for the dx-www-runtime HTIP codec and binary-delta
engine.  Rust sources are shallowly embedded: bytes are `Nat` values
(always below 256 in the wire format; the arithmetic facts proved here do
not depend on that bound unless stated), byte buffers are `List Nat`,
machine-integer reads are little-endian arithmetic on those lists, and
fallible code returns `Except`.
-/

namespace DxDelta

/-- Embedding of `calculate_delta` from `crates/dx-server/src/delta.rs`:
for each index `i` of `new`, emit `old[i] XOR new[i]` while `i < old.len()`,
and the raw byte `new[i]` beyond the end of `old`. -/
def calculate_delta : List Nat → List Nat → List Nat
  | _, [] => []
  | [], n :: ns => n :: calculate_delta [] ns
  | o :: os, n :: ns => (o ^^^ n) :: calculate_delta os ns

/-- Embedding of `apply_delta` from `crates/dx-server/src/delta.rs`:
for each index `i` of `delta`, emit `base[i] XOR delta[i]` while
`i < base.len()`, and the raw byte `delta[i]` beyond the end of `base`. -/
def apply_delta : List Nat → List Nat → List Nat
  | _, [] => []
  | [], d :: ds => d :: apply_delta [] ds
  | b :: bs, d :: ds => (b ^^^ d) :: apply_delta bs ds

lemma calculate_delta_nil_left (t : List Nat) : calculate_delta [] t = t := by
  induction t with
  | nil => rfl
  | cons n ns ih => simp [calculate_delta, ih]

lemma apply_delta_nil_left (d : List Nat) : apply_delta [] d = d := by
  induction d with
  | nil => rfl
  | cons n ns ih => simp [apply_delta, ih]

lemma calculate_delta_length (old new_ : List Nat) :
    (calculate_delta old new_).length = new_.length := by
  induction old generalizing new_ with
  | nil => simp [calculate_delta_nil_left]
  | cons o os ih =>
    cases new_ with
    | nil => rfl
    | cons n ns => simp [calculate_delta, ih]

lemma apply_delta_length (base delta : List Nat) :
    (apply_delta base delta).length = delta.length := by
  induction base generalizing delta with
  | nil => simp [apply_delta_nil_left]
  | cons b bs ih =>
    cases delta with
    | nil => rfl
    | cons d ds => simp [apply_delta, ih]

lemma xor_cancel_left_nat (a b : Nat) : a ^^^ (a ^^^ b) = b := by
  rw [← Nat.xor_assoc, Nat.xor_self, Nat.zero_xor]

/-- C1: for all byte sequences `b` and `t`, applying the delta generated from
base `b` and target `t` back onto `b` reproduces `t` exactly — including when
`t` is shorter than `b`, longer than `b`, or empty. -/
theorem delta_roundtrip (b t : List Nat) :
    apply_delta b (calculate_delta b t) = t := by
  induction b generalizing t with
  | nil => rw [calculate_delta_nil_left, apply_delta_nil_left]
  | cons o os ih =>
    cases t with
    | nil => rfl
    | cons n ns => simp [calculate_delta, apply_delta, ih, xor_cancel_left_nat]

/-- C10: `calculate_delta(old, new)` returns a delta whose length is exactly
the length of `new`, and `apply_delta(base, delta)` returns a result whose
length is exactly the length of `delta`. -/
theorem delta_lengths :
    (∀ old new_ : List Nat, (calculate_delta old new_).length = new_.length) ∧
    (∀ base delta : List Nat, (apply_delta base delta).length = delta.length) :=
  ⟨calculate_delta_length, apply_delta_length⟩

end DxDelta

namespace DxOpcodes

/-- Embedding of `OpcodeV1` from `crates/dx-binary/src/opcodes.rs`:
the 11 HTIP v1 opcodes with fixed one-byte discriminants. -/
inductive OpcodeV1 where
  | TemplateDef
  | Instantiate
  | PatchText
  | PatchAttr
  | PatchClassToggle
  | AttachEvent
  | RemoveNode
  | BatchStart
  | BatchCommit
  | SetProperty
  | AppendChild
  deriving DecidableEq

/-- Embedding of `OpcodeV1::to_u8` (the `repr(u8)` discriminants
`TemplateDef = 0x01` ... `AppendChild = 0x0B`). -/
def OpcodeV1.to_u8 : OpcodeV1 → Nat
  | .TemplateDef => 0x01
  | .Instantiate => 0x02
  | .PatchText => 0x03
  | .PatchAttr => 0x04
  | .PatchClassToggle => 0x05
  | .AttachEvent => 0x06
  | .RemoveNode => 0x07
  | .BatchStart => 0x08
  | .BatchCommit => 0x09
  | .SetProperty => 0x0A
  | .AppendChild => 0x0B

/-- Embedding of `OpcodeV1::from_u8`: match on the byte, `None` on any
value outside `0x01..=0x0B`. -/
def OpcodeV1.from_u8 : Nat → Option OpcodeV1
  | 0x01 => some .TemplateDef
  | 0x02 => some .Instantiate
  | 0x03 => some .PatchText
  | 0x04 => some .PatchAttr
  | 0x05 => some .PatchClassToggle
  | 0x06 => some .AttachEvent
  | 0x07 => some .RemoveNode
  | 0x08 => some .BatchStart
  | 0x09 => some .BatchCommit
  | 0x0A => some .SetProperty
  | 0x0B => some .AppendChild
  | _ => none

/-- C4: the opcode tag is one byte with the fixed codes TemplateDef=1 ...
AppendChild=11; `from_u8 (to_u8 op) = some op` for every opcode `op`, and
`from_u8` returns `none` for every byte outside `1..=11`. -/
theorem opcode_tag_roundtrip :
    (OpcodeV1.to_u8 .TemplateDef = 1 ∧ OpcodeV1.to_u8 .Instantiate = 2 ∧
     OpcodeV1.to_u8 .PatchText = 3 ∧ OpcodeV1.to_u8 .PatchAttr = 4 ∧
     OpcodeV1.to_u8 .PatchClassToggle = 5 ∧ OpcodeV1.to_u8 .AttachEvent = 6 ∧
     OpcodeV1.to_u8 .RemoveNode = 7 ∧ OpcodeV1.to_u8 .BatchStart = 8 ∧
     OpcodeV1.to_u8 .BatchCommit = 9 ∧ OpcodeV1.to_u8 .SetProperty = 10 ∧
     OpcodeV1.to_u8 .AppendChild = 11) ∧
    (∀ op : OpcodeV1, OpcodeV1.from_u8 (OpcodeV1.to_u8 op) = some op) ∧
    (∀ b : Nat, ¬(1 ≤ b ∧ b ≤ 11) → OpcodeV1.from_u8 b = none) := by
  refine ⟨by decide, ?_, ?_⟩
  · intro op; cases op <;> rfl
  · intro b hb
    match b, hb with
    | 0, _ => rfl
    | n + 12, _ => rfl
    | 1, hb | 2, hb | 3, hb | 4, hb | 5, hb | 6, hb | 7, hb | 8, hb
    | 9, hb | 10, hb | 11, hb => exact absurd (by omega) hb

/-- Witness for C4: concrete instances of the round-trip at `Instantiate`
and of the rejection of the out-of-range bytes 0 and 12. -/
theorem opcode_tag_roundtrip_witness :
    OpcodeV1.from_u8 (OpcodeV1.to_u8 .Instantiate) = some .Instantiate ∧
    OpcodeV1.from_u8 0 = none ∧ OpcodeV1.from_u8 12 = none :=
  ⟨opcode_tag_roundtrip.2.1 .Instantiate,
   opcode_tag_roundtrip.2.2 0 (by decide),
   opcode_tag_roundtrip.2.2 12 (by decide)⟩

end DxOpcodes

namespace DxPacket

/-- Read one byte of a buffer; the Rust side reads raw WASM memory through a
pointer, so an out-of-range index models unspecified memory and is fixed to 0
here (every theorem below only depends on in-range bytes). -/
def readByte (data : List Nat) (i : Nat) : Nat := data.getD i 0

/-- Little-endian `u16` read, as `ptr::read_unaligned` performs on the
`repr(C)` header fields. -/
def readU16 (data : List Nat) (i : Nat) : Nat :=
  readByte data i + 256 * readByte data (i + 1)

/-- Little-endian `u32` read. -/
def readU32 (data : List Nat) (i : Nat) : Nat :=
  readByte data i + 256 * readByte data (i + 1) +
    65536 * readByte data (i + 2) + 16777216 * readByte data (i + 3)

/-- Embedding of `HtipHeader` from `crates/dx-packet/src/lib.rs`: the fixed
16-byte HTIP v2 header (magic u16, version u8, flags u8, template_count u16,
string_count u16, opcode_count u32, payload_size u32, all little-endian). -/
structure HtipHeader where
  magic : Nat
  version : Nat
  flags : Nat
  template_count : Nat
  string_count : Nat
  opcode_count : Nat
  payload_size : Nat
  deriving DecidableEq

/-- `HtipHeader::MAGIC` (0x4458, "DX" little-endian). -/
def MAGIC : Nat := 0x4458

/-- `HtipHeader::VERSION` (currently 2). -/
def VERSION : Nat := 2

/-- `HtipHeader::SIZE` (16 bytes). -/
def HEADER_SIZE : Nat := 16

/-- Embedding of `HtipHeader::is_valid`: magic equals 0x4458 and version
equals 2. -/
def HtipHeader.is_valid (h : HtipHeader) : Bool :=
  h.magic == MAGIC && h.version == VERSION

/-- Embedding of the zero-copy header read in `render_stream`
(`crates/dx-client/src/lib.rs`): `ptr::read_unaligned` of the `repr(C)`
header at offset 0, field offsets 0/2/3/4/6/8/12. -/
def readHeader (data : List Nat) : HtipHeader where
  magic := readU16 data 0
  version := readByte data 2
  flags := readByte data 3
  template_count := readU16 data 4
  string_count := readU16 data 6
  opcode_count := readU32 data 8
  payload_size := readU32 data 12

/-- Error codes of `ErrorCode` in `crates/dx-packet/src/lib.rs`
(`repr(u8)`, surfaced as plain bytes). -/
def errOk : Nat := 0
def errInvalidMagic : Nat := 1
def errUnsupportedVersion : Nat := 2
def errInvalidOpcode : Nat := 3
def errTemplateNotFound : Nat := 4
def errStringIndexOutOfBounds : Nat := 5
def errNodeNotFound : Nat := 6
def errBufferTooSmall : Nat := 7

/-- Error code 8, `InvalidSignature`, from the §7 error taxonomy of the
specification (the `ErrorCode` enum under `src/` stops at 7). -/
def errInvalidSignature : Nat := 8

/-- Embedding of the envelope prefix of `render_stream` in
`crates/dx-client/src/lib.rs` (lines 88-102): reject buffers shorter than
the 16-byte header with `BufferTooSmall`, read the header, and reject any
header failing `is_valid` with `InvalidMagic`; on success the header is
handed on to `Renderer::process_stream`. -/
def render_stream_envelope (data : List Nat) : Except Nat HtipHeader :=
  if data.length < HEADER_SIZE then .error errBufferTooSmall
  else
    let header := readHeader data
    if ¬ header.is_valid then .error errInvalidMagic
    else .ok header

/-- Modelled from the spec: `Renderer::process_stream` (module `renderer` of
`crates/dx-client`, not present under `src/`).  Per §4.5 pass 1 the decoder
"bounds-check[s] declared payload size against buffer length"; a declared
`payload_size` exceeding the bytes remaining after the 16-byte header is a
truncated payload, rejected as `BufferTooSmall` (§7 code 7).  Deeper passes
are out of scope here, so a stream passing the bounds check is accepted. -/
def process_stream_spec (data : List Nat) (h : HtipHeader) : Except Nat Unit :=
  if data.length - HEADER_SIZE < h.payload_size then .error errBufferTooSmall
  else .ok ()

/-- The full v2 decode path: the envelope checks of `render_stream` followed
by the spec-modelled `process_stream` bounds check. -/
def render_stream_v2 (data : List Nat) : Except Nat Unit :=
  match render_stream_envelope data with
  | .error e => .error e
  | .ok h => process_stream_spec data h

/-- C3: decode accepts a header iff its magic equals 0x4458 and its version
equals 2; any buffer whose header violates either condition is rejected with
an error, and any buffer of at least 16 bytes whose header satisfies both
passes the header-validity check (the header is handed to the renderer). -/
theorem header_validity :
    (∀ hd : HtipHeader,
      hd.is_valid = true ↔ (hd.magic = MAGIC ∧ hd.version = VERSION)) ∧
    (∀ data : List Nat, (readHeader data).is_valid = false →
      ∃ e, render_stream_envelope data = .error e) ∧
    (∀ data : List Nat, HEADER_SIZE ≤ data.length →
      (readHeader data).is_valid = true →
      render_stream_envelope data = .ok (readHeader data)) := by
  refine ⟨?_, ?_, ?_⟩
  · intro hd
    simp [HtipHeader.is_valid]
  · intro data hinvalid
    by_cases hlen : data.length < HEADER_SIZE
    · exact ⟨errBufferTooSmall, by simp [render_stream_envelope, hlen]⟩
    · exact ⟨errInvalidMagic, by simp [render_stream_envelope, hlen, hinvalid]⟩
  · intro data hlen hvalid
    simp [render_stream_envelope, Nat.not_lt.mpr hlen, hvalid]

/-- Witness for C3: a concrete valid header is accepted and a concrete
all-zero header is rejected. -/
theorem header_validity_witness :
    render_stream_envelope [0x58, 0x44, 2, 0, 0, 0, 0, 0, 0, 0, 0, 0, 0, 0, 0, 0] =
      .ok (readHeader [0x58, 0x44, 2, 0, 0, 0, 0, 0, 0, 0, 0, 0, 0, 0, 0, 0]) ∧
    (∃ e, render_stream_envelope [0, 0, 0, 0, 0, 0, 0, 0, 0, 0, 0, 0, 0, 0, 0, 0] =
      .error e) :=
  ⟨header_validity.2.2 _ (by decide) (by decide),
   header_validity.2.1 _ (by decide)⟩

/-- Counterexample to C6: a 16-byte buffer with correct magic 0x4458 but
version 3 is rejected by the decode path with error code 1 (`InvalidMagic`),
not with the claimed distinct code 2 (`UnsupportedVersion`). -/
theorem version_error_code_cex :
    (readHeader [0x58, 0x44, 3, 0, 0, 0, 0, 0, 0, 0, 0, 0, 0, 0, 0, 0]).magic = MAGIC ∧
    (readHeader [0x58, 0x44, 3, 0, 0, 0, 0, 0, 0, 0, 0, 0, 0, 0, 0, 0]).version ≠ VERSION ∧
    render_stream_envelope [0x58, 0x44, 3, 0, 0, 0, 0, 0, 0, 0, 0, 0, 0, 0, 0, 0] =
      .error errInvalidMagic ∧
    errInvalidMagic ≠ errUnsupportedVersion := by
  refine ⟨by decide, by decide, by rfl, by decide⟩

/-- C6 amended: for every input whose header has the correct magic 0x4458 but
a version field not equal to 2, decode fails with error code 1
(`InvalidMagic`) — the merged `is_valid` check surfaces a version mismatch
under `InvalidMagic`, never as the distinct code 2. -/
theorem version_error_code (data : List Nat)
    (hlen : HEADER_SIZE ≤ data.length)
    (hmagic : (readHeader data).magic = MAGIC)
    (hver : (readHeader data).version ≠ VERSION) :
    render_stream_envelope data = .error errInvalidMagic := by
  have hinvalid : (readHeader data).is_valid = false := by
    simp [HtipHeader.is_valid, hmagic, hver]
  simp [render_stream_envelope, Nat.not_lt.mpr hlen, hinvalid]

/-- Witness for the amended C6 at the concrete version-3 buffer. -/
theorem version_error_code_witness :
    render_stream_envelope [0x58, 0x44, 3, 0, 0, 0, 0, 0, 0, 0, 0, 0, 0, 0, 0, 0] =
      .error errInvalidMagic :=
  version_error_code _ (by decide) (by decide) (by decide)

/-- C7: the envelope pass rejects every buffer shorter than the 16-byte
header with `BufferTooSmall`, and rejects every buffer whose header declares
a `payload_size` larger than the bytes remaining after the header. -/
theorem envelope_bounds (data : List Nat) :
    (data.length < HEADER_SIZE → render_stream_v2 data = .error errBufferTooSmall) ∧
    (HEADER_SIZE ≤ data.length →
      data.length - HEADER_SIZE < (readHeader data).payload_size →
      ∃ e, render_stream_v2 data = .error e) := by
  constructor
  · intro hlen
    simp [render_stream_v2, render_stream_envelope, hlen]
  · intro hlen hsize
    by_cases hvalid : (readHeader data).is_valid = true
    · refine ⟨errBufferTooSmall, ?_⟩
      simp [render_stream_v2, render_stream_envelope, Nat.not_lt.mpr hlen, hvalid,
        process_stream_spec, hsize]
    · refine ⟨errInvalidMagic, ?_⟩
      simp [render_stream_v2, render_stream_envelope, Nat.not_lt.mpr hlen,
        Bool.not_eq_true _ ▸ hvalid]

/-- Witness for C7: the empty buffer is rejected as too small, and a
16-byte valid header declaring one payload byte over an empty remainder is
rejected. -/
theorem envelope_bounds_witness :
    render_stream_v2 [] = .error errBufferTooSmall ∧
    (∃ e, render_stream_v2 [0x58, 0x44, 2, 0, 0, 0, 0, 0, 0, 0, 0, 0, 1, 0, 0, 0] =
      .error e) :=
  ⟨(envelope_bounds []).1 (by decide),
   (envelope_bounds _).2 (by decide) (by decide)⟩

/-- Modelled from the spec: the decode half of the §4.6 signature pipeline
(`dx_binary::deserializer::HtipStream::new`, module `deserializer` of
`crates/dx-binary`, not present under `src/`).  The stream splits as
`signature(64) ‖ payload`; Ed25519 verification with the caller-provided
public key is abstracted as a boolean-valued function; on failure the
result is the fatal error `InvalidSignature` and the payload decoder is
never consulted. -/
def decode_signed {K α : Type} (verify : K → List Nat → List Nat → Bool)
    (key : K) (stream : List Nat)
    (decodePayload : List Nat → Except Nat α) : Except Nat α :=
  let signature := stream.take 64
  let payload := stream.drop 64
  if verify key payload signature then decodePayload payload
  else .error errInvalidSignature

/-- C2: on decode the stream is split into (signature, payload) and the
signature is verified with the caller-provided key before any payload
decoding; when verification fails the result is the fatal error
`InvalidSignature`, and it does not depend on the payload decoder at all —
no decoding of the payload occurs. -/
theorem signature_gate {K α : Type} (verify : K → List Nat → List Nat → Bool)
    (key : K) (stream : List Nat) (d d' : List Nat → Except Nat α)
    (hfail : verify key (stream.drop 64) (stream.take 64) = false) :
    decode_signed verify key stream d = .error errInvalidSignature ∧
    decode_signed verify key stream d = decode_signed verify key stream d' := by
  constructor <;> simp [decode_signed, hfail]

/-- Witness for C2: a rejecting verifier on the empty stream yields
`InvalidSignature` regardless of the payload decoder. -/
theorem signature_gate_witness :
    decode_signed (fun (_ : Unit) (_ _ : List Nat) => false) () []
        (fun _ => Except.ok ()) = .error errInvalidSignature ∧
    decode_signed (fun (_ : Unit) (_ _ : List Nat) => false) () []
        (fun _ => Except.ok ()) =
      decode_signed (fun (_ : Unit) (_ _ : List Nat) => false) () []
        (fun _ => Except.error 0) :=
  signature_gate _ () [] _ _ rfl

end DxPacket

namespace DxClientTiny

open DxPacket (readByte readU16)

/-- Opcode bytes of the minimal set in `crates/dx-client-tiny/src/lib.rs`. -/
def OP_CLONE : Nat := 1
def OP_PATCH_TEXT : Nat := 2
def OP_PATCH_ATTR : Nat := 3
def OP_CLASS_TOGGLE : Nat := 4
def OP_REMOVE : Nat := 5

/-- One call into the JavaScript host, mirroring the `extern "C"` imports of
`crates/dx-client-tiny/src/lib.rs`; pointer/length pairs are embedded as the
byte slices they address. -/
inductive HostCall where
  | cloneTemplate (template_id : Nat)
  | append (parent_id child_id : Nat)
  | setText (node_id : Nat) (text : List Nat)
  | setAttr (node_id : Nat) (key val : List Nat)
  | toggleClass (node_id : Nat) (cls : List Nat) (enable : Nat)
  | remove (node_id : Nat)
  deriving DecidableEq

/-- Slice `len` bytes of the buffer starting at `off` (the bytes a
pointer-length pair passed to the host addresses). -/
def slice (data : List Nat) (off len : Nat) : List Nat :=
  (data.drop off).take len

/-- Embedding of the opcode loop of `render_stream` in
`crates/dx-client-tiny/src/lib.rs`: while `offset < len`, read the opcode
byte and its inline payload, emit the corresponding host calls, and advance;
an unknown opcode byte breaks out of the loop.  `hostClone` models the node
handle the host returns for the n-th `host_clone_template` call, and
`cloneCount` counts those calls.  The loop itself never fails: it always
returns result code 0 together with the host calls it made. -/
def tinyLoop (data : List Nat) (len : Nat) (hostClone : Nat → Nat → Nat)
    (offset cloneCount : Nat) : Nat × List HostCall :=
  if h : offset < len then
    let op := readByte data offset
    if op = OP_CLONE then
      let template_id := readByte data (offset + 1)
      let node_handle := hostClone cloneCount template_id
      let rest := tinyLoop data len hostClone (offset + 2) (cloneCount + 1)
      (rest.1, .cloneTemplate template_id :: .append 0 node_handle :: rest.2)
    else if op = OP_PATCH_TEXT then
      let node_id := readU16 data (offset + 1)
      let text_len := readU16 data (offset + 3)
      let rest := tinyLoop data len hostClone (offset + 5 + text_len) cloneCount
      (rest.1, .setText node_id (slice data (offset + 5) text_len) :: rest.2)
    else if op = OP_PATCH_ATTR then
      let node_id := readU16 data (offset + 1)
      let key_len := readU16 data (offset + 3)
      let val_len := readU16 data (offset + 5 + key_len)
      let rest :=
        tinyLoop data len hostClone (offset + 7 + key_len + val_len) cloneCount
      (rest.1, .setAttr node_id (slice data (offset + 5) key_len)
        (slice data (offset + 7 + key_len) val_len) :: rest.2)
    else if op = OP_CLASS_TOGGLE then
      let node_id := readU16 data (offset + 1)
      let class_len := readU16 data (offset + 3)
      let enable := readByte data (offset + 5 + class_len)
      let rest := tinyLoop data len hostClone (offset + 6 + class_len) cloneCount
      (rest.1, .toggleClass node_id (slice data (offset + 5) class_len)
        enable :: rest.2)
    else if op = OP_REMOVE then
      let node_id := readU16 data (offset + 1)
      let rest := tinyLoop data len hostClone (offset + 3) cloneCount
      (rest.1, .remove node_id :: rest.2)
    else
      (0, [])
  else
    (0, [])
  termination_by len - offset
  decreasing_by all_goals omega

/-- Embedding of `render_stream` in `crates/dx-client-tiny/src/lib.rs`:
buffers shorter than the 4-byte header return error code 1; otherwise the
4-byte header is skipped and the opcode loop runs from offset 4. -/
def render_stream_tiny (hostClone : Nat → Nat → Nat)
    (data : List Nat) : Nat × List HostCall :=
  if data.length < 4 then (1, [])
  else tinyLoop data data.length hostClone 4 0

/-- C9: a stream consisting of only the header and no opcodes decodes
successfully (result code 0) and performs zero host calls. -/
theorem empty_stream_no_host_calls (hostClone : Nat → Nat → Nat)
    (data : List Nat) (hlen : data.length = 4) :
    render_stream_tiny hostClone data = (0, []) := by
  rw [render_stream_tiny, if_neg (by omega), hlen, tinyLoop]
  simp

/-- Witness for C9 at the concrete header bytes "DX", version 2, flags 0. -/
theorem empty_stream_no_host_calls_witness :
    render_stream_tiny (fun _ _ => 0) [0x44, 0x58, 2, 0] = (0, []) :=
  empty_stream_no_host_calls _ _ (by decide)

/-- Counterexample to C5: the stream whose single opcode byte 99 is unknown
decodes with result code 0 (success, not `InvalidOpcode` = 3): the tiny
client silently accepts the corrupted opcode stream. -/
theorem unknown_opcode_cex :
    render_stream_tiny (fun _ _ => 0) [0x44, 0x58, 2, 0, 99] = (0, []) ∧
    (0 : Nat) ≠ DxPacket.errInvalidOpcode := by
  constructor
  · rw [render_stream_tiny, if_neg (by decide), tinyLoop]
    decide
  · decide

lemma tinyLoop_code (fuel : Nat) :
    ∀ (data : List Nat) (len : Nat) (hostClone : Nat → Nat → Nat)
      (off cnt : Nat), len - off ≤ fuel →
      (tinyLoop data len hostClone off cnt).1 = 0 := by
  induction fuel with
  | zero =>
    intro data len hostClone off cnt hle
    rw [tinyLoop, dif_neg (by omega)]
  | succ fuel ih =>
    intro data len hostClone off cnt hle
    rw [tinyLoop]
    by_cases hlt : off < len
    · rw [dif_pos hlt]
      dsimp only
      split_ifs
      · exact ih _ _ _ _ _ (by omega)
      · exact ih _ _ _ _ _ (by omega)
      · exact ih _ _ _ _ _ (by omega)
      · exact ih _ _ _ _ _ (by omega)
      · exact ih _ _ _ _ _ (by omega)
      · rfl
    · rw [dif_neg hlt]

/-- C5 amended: wherever the opcode walk reaches an unknown opcode tag —
at any offset, after any number of already-processed opcodes — the tiny
client stops there: no host calls are made for the unknown tag or any
later opcode, and the loop contributes the result code 0; consequently
decoding any stream of at least header size returns the success code 0,
so a corrupted opcode stream is silently accepted rather than rejected
with `InvalidOpcode`. -/
theorem unknown_opcode_silent :
    (∀ (data : List Nat) (len : Nat) (hostClone : Nat → Nat → Nat)
      (off cnt : Nat), ¬(1 ≤ readByte data off ∧ readByte data off ≤ 5) →
      tinyLoop data len hostClone off cnt = (0, [])) ∧
    (∀ (hostClone : Nat → Nat → Nat) (data : List Nat), 4 ≤ data.length →
      (render_stream_tiny hostClone data).1 = 0) := by
  constructor
  · intro data len hostClone off cnt hop
    rw [tinyLoop]
    by_cases hlt : off < len
    · rw [dif_pos hlt]
      have h1 : ¬ readByte data off = OP_CLONE := by
        simp only [OP_CLONE]; omega
      have h2 : ¬ readByte data off = OP_PATCH_TEXT := by
        simp only [OP_PATCH_TEXT]; omega
      have h3 : ¬ readByte data off = OP_PATCH_ATTR := by
        simp only [OP_PATCH_ATTR]; omega
      have h4 : ¬ readByte data off = OP_CLASS_TOGGLE := by
        simp only [OP_CLASS_TOGGLE]; omega
      have h5 : ¬ readByte data off = OP_REMOVE := by
        simp only [OP_REMOVE]; omega
      simp [h1, h2, h3, h4, h5]
    · rw [dif_neg hlt]
  · intro hostClone data hlen
    rw [render_stream_tiny, if_neg (by omega)]
    exact tinyLoop_code data.length data data.length hostClone 4 0 (by omega)

/-- Witness for the amended C5: in the concrete stream whose opcodes are a
valid `OP_REMOVE` followed by the unknown tag 99 at offset 7, the loop at
the unknown tag emits nothing further, and the whole decode returns the
success code 0. -/
theorem unknown_opcode_silent_witness :
    tinyLoop [0x44, 0x58, 2, 0, 5, 1, 0, 99] 8 (fun _ _ => 7) 7 0 = (0, []) ∧
    (render_stream_tiny (fun _ _ => 7) [0x44, 0x58, 2, 0, 5, 1, 0, 99]).1 = 0 :=
  ⟨unknown_opcode_silent.1 _ _ _ _ _ (by decide),
   unknown_opcode_silent.2 _ _ (by decide)⟩

end DxClientTiny

namespace DxSplitter

/-- Modelled from the spec: `SlotType`, re-exported by
`crates/dx-compiler/src/splitter.rs` from a `dx-packet` revision that is not
under `src/`; the slot kinds are those of §3 (`Text`, `Attribute`,
`Property`, `Event`, `Class`).  The splitter itself only constructs
`SlotType::Text`. -/
inductive SlotType where
  | Text
  | Attribute
  | Property
  | Event
  | Class
  deriving DecidableEq

/-- Modelled from the spec: `SlotDef` as constructed by `split_jsx`
(`slot_id`, `slot_type`, tree-walk `path`). -/
structure SlotDef where
  slot_id : Nat
  slot_type : SlotType
  path : List Nat
  deriving DecidableEq

/-- Modelled from the spec: `Template` as constructed by `split_jsx`
(`id`, `html`, `slots`, blake3 `hash` of the html).  The blake3 hex digest
is collision-resistant, so the dedup key is embedded injectively as the
html string itself. -/
structure Template where
  id : Nat
  html : String
  slots : List SlotDef
  hash : String
  deriving DecidableEq

/-- Embedding of `Binding` from `crates/dx-compiler/src/splitter.rs`. -/
structure Binding where
  slot_id : Nat
  component : String
  expression : String
  dirty_bit : Nat
  deriving DecidableEq

/-- Embedding of `StateField` from `crates/dx-compiler/src/splitter.rs`. -/
structure StateField where
  name : String
  type_name : String
  initial_value : String
  dirty_bit : Nat
  deriving DecidableEq

/-- Embedding of `StateSchema` from `crates/dx-compiler/src/splitter.rs`. -/
structure StateSchema where
  component : String
  fields : List StateField
  deriving DecidableEq

/-- Embedding of `StateDef` from `crates/dx-compiler/src/parser.rs`. -/
structure StateDef where
  name : String
  initial_value : String
  type_annotation : String
  deriving DecidableEq

/-- Embedding of `Component` from `crates/dx-compiler/src/parser.rs`
(the `props` and `hooks` fields are not read by the splitter and are
embedded as raw string lists). -/
structure Component where
  name : String
  props : List String
  state : List StateDef
  jsx_body : String
  hooks : List String
  deriving DecidableEq

/-- Embedding of `ParsedModule` from `crates/dx-compiler/src/parser.rs`
(`path` is embedded as a string). -/
structure ParsedModule where
  path : String
  imports : List String
  exports : List String
  components : List Component
  hash : String
  deriving DecidableEq

lemma length_dropWhile_le (p : Char → Bool) (l : List Char) :
    (l.dropWhile p).length ≤ l.length := by
  induction l with
  | nil => simp
  | cons a l ih =>
    by_cases hp : p a <;> simp [List.dropWhile_cons, hp] <;> omega

/-- Embedding of the capture scan of the regex `\x7b([^\x7d]+)\x7d` that
`split_jsx` runs over the JSX body (`captures_iter`): non-overlapping
leftmost matches; at a `\x7b` the capture greedily takes every following
character up to the next `\x7d` and must be non-empty.  The scan consumes
at least one character per step, so the explicit `fuel` counter (started
one above the input length) only makes the structural recursion evident and
is never exhausted. -/
def findExprsGo : Nat → List Char → List String
  | 0, _ => []
  | _ + 1, [] => []
  | fuel + 1, c :: rest =>
    if c = '\x7b' then
      match rest.dropWhile (fun d => d ≠ '\x7d') with
      | _ :: tail =>
        let cap := rest.takeWhile (fun d => d ≠ '\x7d')
        if cap.isEmpty then findExprsGo fuel rest
        else String.mk cap :: findExprsGo fuel tail
      | [] => findExprsGo fuel rest
    else findExprsGo fuel rest

/-- The capture scan at adequate fuel. -/
def findExprs (l : List Char) : List String := findExprsGo (l.length + 1) l

/-- Embedding of the capture loop of `split_jsx`: for each captured
expression in order, trim it, assign the next slot id, splice the
`<!--SLOT_n-->` marker into the html by replacing every occurrence of the
braced trimmed expression, and record the slot definition and the binding
(with `state.` rewritten to `self.`). -/
def applySlots (component_name : String) :
    List String → String → Nat → String × List SlotDef × List Binding × Nat
  | [], html, next_slot_id => (html, [], [], next_slot_id)
  | e :: rest, html, next_slot_id =>
    let expression := e.trim
    let marker := "<!--SLOT_" ++ toString next_slot_id ++ "-->"
    let html' := html.replace ("\x7b" ++ expression ++ "\x7d") marker
    let r := applySlots component_name rest html' (next_slot_id + 1)
    (r.1, ⟨next_slot_id, .Text, [0]⟩ :: r.2.1,
      ⟨next_slot_id, component_name, expression.replace "state." "self.", 0⟩ :: r.2.2.1,
      r.2.2.2)

/-- Embedding of `split_jsx` from `crates/dx-compiler/src/splitter.rs`:
empty JSX yields no template; otherwise the captures are spliced out, the
html is hashed for deduplication (`template_dedup`, an association list
keyed by the digest), and the template id is either the existing id for an
identical html or the freshly assigned `next_template_id`. -/
def split_jsx (jsx_body component_name : String)
    (next_template_id next_slot_id : Nat)
    (template_dedup : List (String × Nat)) :
    Option Template × List Binding × Nat × Nat × List (String × Nat) :=
  if jsx_body.isEmpty then
    (none, [], next_template_id, next_slot_id, template_dedup)
  else
    let r := applySlots component_name (findExprs jsx_body.toList)
      jsx_body next_slot_id
    let html := r.1
    let hash := html
    match template_dedup.lookup hash with
    | some existing_id =>
      (some ⟨existing_id, html, r.2.1, hash⟩, r.2.2.1,
        next_template_id, r.2.2.2, template_dedup)
    | none =>
      (some ⟨next_template_id, html, r.2.1, hash⟩, r.2.2.1,
        next_template_id + 1, r.2.2.2, (hash, next_template_id) :: template_dedup)

/-- Embedding of the field loop of `extract_state_schema`: fields receive
dirty bits 0, 1, ...; incrementing the bit to 64 is the
"dirty_mask overflow" error. -/
def extractFields : List StateDef → Nat → Except String (List StateField)
  | [], _ => .ok []
  | sd :: rest, dirty_bit =>
    if dirty_bit + 1 ≥ 64 then .error "dirty_mask overflow"
    else
      match extractFields rest (dirty_bit + 1) with
      | .ok fs => .ok (⟨sd.name, sd.type_annotation, sd.initial_value, dirty_bit⟩ :: fs)
      | .error e => .error e

/-- Embedding of `extract_state_schema` from
`crates/dx-compiler/src/splitter.rs`. -/
def extract_state_schema (c : Component) : Except String StateSchema :=
  match extractFields c.state 0 with
  | .ok fs => .ok ⟨c.name, fs⟩
  | .error e => .error e

/-- The mutable accumulators of `split_components`. -/
structure SplitAcc where
  templates : List Template
  bindings : List Binding
  schemas : List StateSchema
  template_dedup : List (String × Nat)
  next_template_id : Nat
  next_slot_id : Nat

/-- One iteration of the component loop of `split_components`: extract the
state schema, split the JSX, and append the outputs. -/
def processComponent (acc : SplitAcc) (c : Component) : Except String SplitAcc :=
  match extract_state_schema c with
  | .error e => .error e
  | .ok schema =>
    let r := split_jsx c.jsx_body c.name acc.next_template_id acc.next_slot_id
      acc.template_dedup
    .ok { templates :=
            match r.1 with
            | some t => acc.templates ++ [t]
            | none => acc.templates,
          bindings := acc.bindings ++ r.2.1,
          schemas := acc.schemas ++ [schema],
          next_template_id := r.2.2.1,
          next_slot_id := r.2.2.2.1,
          template_dedup := r.2.2.2.2 }

/-- The inner `for component in &module.components` loop. -/
def processComponents (acc : SplitAcc) : List Component → Except String SplitAcc
  | [] => .ok acc
  | c :: cs =>
    match processComponent acc c with
    | .error e => .error e
    | .ok acc' => processComponents acc' cs

/-- The outer `for module in &modules` loop. -/
def processModules (acc : SplitAcc) : List ParsedModule → Except String SplitAcc
  | [] => .ok acc
  | m :: ms =>
    match processComponents acc m.components with
    | .error e => .error e
    | .ok acc' => processModules acc' ms

/-- Embedding of `split_components` from
`crates/dx-compiler/src/splitter.rs` (the `verbose` flag only controls
logging and is ignored). -/
def split_components (modules : List ParsedModule) (verbose : Bool) :
    Except String (List Template × List Binding × List StateSchema) :=
  match processModules ⟨[], [], [], [], 0, 0⟩ modules with
  | .error e => .error e
  | .ok acc => .ok (acc.templates, acc.bindings, acc.schemas)

lemma lookup_mem {l : List (String × Nat)} {a : String} {b : Nat}
    (h : List.lookup a l = some b) : (a, b) ∈ l := by
  induction l with
  | nil => simp [List.lookup] at h
  | cons p rest ih =>
    obtain ⟨k, v⟩ := p
    by_cases hk : a == k
    · have hak : a = k := by simpa using hk
      simp [List.lookup, hk] at h
      subst hak h
      exact List.mem_cons_self _ _
    · simp [List.lookup, hk] at h
      exact List.mem_cons_of_mem _ (ih h)

/-- Invariant of the `split_components` accumulator: every produced template
id is below the id counter, every value below the counter is the id of some
produced template, and every id recorded in the dedup table is below the
counter. -/
def TemplateIdsInv (acc : SplitAcc) : Prop :=
  (∀ t ∈ acc.templates, t.id < acc.next_template_id) ∧
  (∀ k < acc.next_template_id, ∃ t ∈ acc.templates, t.id = k) ∧
  (∀ p ∈ acc.template_dedup, p.2 < acc.next_template_id)

lemma split_jsx_cases (jsx name : String) (ntid nsid : Nat)
    (dedup : List (String × Nat)) :
    (split_jsx jsx name ntid nsid dedup).1 = none ∧
      (split_jsx jsx name ntid nsid dedup).2.2.1 = ntid ∧
      (split_jsx jsx name ntid nsid dedup).2.2.2.2 = dedup ∨
    (∃ t, (split_jsx jsx name ntid nsid dedup).1 = some t ∧
      (split_jsx jsx name ntid nsid dedup).2.2.1 = ntid ∧
      (split_jsx jsx name ntid nsid dedup).2.2.2.2 = dedup ∧
      (t.hash, t.id) ∈ dedup) ∨
    (∃ t, (split_jsx jsx name ntid nsid dedup).1 = some t ∧
      (split_jsx jsx name ntid nsid dedup).2.2.1 = ntid + 1 ∧
      (split_jsx jsx name ntid nsid dedup).2.2.2.2 = (t.hash, ntid) :: dedup ∧
      t.id = ntid) := by
  by_cases hempty : jsx.isEmpty
  · left; simp [split_jsx, hempty]
  · cases hlk : List.lookup (applySlots name (findExprs jsx.toList) jsx nsid).1
        dedup with
    | some i =>
      right; left
      refine ⟨⟨i, (applySlots name (findExprs jsx.toList) jsx nsid).1,
          (applySlots name (findExprs jsx.toList) jsx nsid).2.1,
          (applySlots name (findExprs jsx.toList) jsx nsid).1⟩,
        ?_, ?_, ?_, lookup_mem hlk⟩ <;>
        (simp only [split_jsx]; rw [if_neg hempty]; simp only [hlk])
    | none =>
      right; right
      refine ⟨⟨ntid, (applySlots name (findExprs jsx.toList) jsx nsid).1,
          (applySlots name (findExprs jsx.toList) jsx nsid).2.1,
          (applySlots name (findExprs jsx.toList) jsx nsid).1⟩,
        ?_, ?_, ?_, rfl⟩ <;>
        (simp only [split_jsx]; rw [if_neg hempty]; simp only [hlk])

lemma processComponent_inv {acc acc' : SplitAcc} {c : Component}
    (h : processComponent acc c = .ok acc') (hinv : TemplateIdsInv acc) :
    TemplateIdsInv acc' := by
  obtain ⟨hbelow, hdense, hdedup⟩ := hinv
  unfold processComponent at h
  cases hs : extract_state_schema c with
  | error e => rw [hs] at h; cases h
  | ok schema =>
    rw [hs] at h
    simp only [Except.ok.injEq] at h
    subst h
    rcases split_jsx_cases c.jsx_body c.name acc.next_template_id
        acc.next_slot_id acc.template_dedup with
      ⟨h1, h2, h3⟩ | ⟨t, h1, h2, h3, hmem⟩ | ⟨t, h1, h2, h3, hid⟩
    · refine ⟨?_, ?_, ?_⟩ <;> simp only [TemplateIdsInv, h1, h2, h3]
      · exact hbelow
      · intro k hk
        exact hdense k hk
      · exact hdedup
    · have htid : t.id < acc.next_template_id := hdedup _ hmem
      refine ⟨?_, ?_, ?_⟩ <;> simp only [h1, h2, h3]
      · intro t' ht'
        rcases List.mem_append.mp ht' with hmem' | hmem'
        · exact hbelow t' hmem'
        · simp at hmem'; subst hmem'; exact htid
      · intro k hk
        obtain ⟨t', ht', hid'⟩ := hdense k hk
        exact ⟨t', List.mem_append_left _ ht', hid'⟩
      · exact hdedup
    · refine ⟨?_, ?_, ?_⟩ <;> simp only [h1, h2, h3]
      · intro t' ht'
        rcases List.mem_append.mp ht' with hmem' | hmem'
        · exact Nat.lt_succ_of_lt (hbelow t' hmem')
        · simp at hmem'; subst hmem'; omega
      · intro k hk
        rcases Nat.lt_succ_iff_lt_or_eq.mp hk with hk' | hk'
        · obtain ⟨t', ht', hid'⟩ := hdense k hk'
          exact ⟨t', List.mem_append_left _ ht', hid'⟩
        · exact ⟨t, List.mem_append_right _ (List.mem_singleton_self t),
            by omega⟩
      · intro p hp
        rcases List.mem_cons.mp hp with hp' | hp'
        · subst hp'; omega
        · exact Nat.lt_succ_of_lt (hdedup p hp')

lemma processComponents_inv {acc acc' : SplitAcc} {cs : List Component}
    (h : processComponents acc cs = .ok acc') (hinv : TemplateIdsInv acc) :
    TemplateIdsInv acc' := by
  induction cs generalizing acc with
  | nil => simp [processComponents] at h; rwa [← h]
  | cons c cs ih =>
    rw [processComponents] at h
    cases hc : processComponent acc c with
    | error e => rw [hc] at h; cases h
    | ok acc1 =>
      rw [hc] at h
      exact ih h (processComponent_inv hc hinv)

lemma processModules_inv {acc acc' : SplitAcc} {ms : List ParsedModule}
    (h : processModules acc ms = .ok acc') (hinv : TemplateIdsInv acc) :
    TemplateIdsInv acc' := by
  induction ms generalizing acc with
  | nil => simp [processModules] at h; rwa [← h]
  | cons m ms ih =>
    rw [processModules] at h
    cases hc : processComponents acc m.components with
    | error e => rw [hc] at h; cases h
    | ok acc1 =>
      rw [hc] at h
      exact ih h (processComponents_inv hc hinv)

/-- Counterexample to C8: two components with byte-identical JSX make
`split_components` emit two templates that both carry id 0 — so with
`template_count = 2` the ids are neither unique nor exactly `{0, 1}`. -/
theorem split_ids_cex :
    (split_components
        [⟨"m.tsx", [], [],
          [⟨"A", [], [], "<p>hi</p>", []⟩, ⟨"B", [], [], "<p>hi</p>", []⟩],
          "h"⟩]
        false).toOption.map (fun r => r.1.map Template.id) = some [0, 0] := by
  rfl

/-- C8 amended: the template ids produced by `split_components` are dense
from 0 as a set — below every produced id, every value is also the id of
some produced template — but they need not be unique: deduplication of
byte-identical html re-emits an already-assigned id, so the output list may
repeat ids and its length may exceed the number of distinct ids. -/
theorem split_ids_dense (modules : List ParsedModule) (verbose : Bool)
    (ts : List Template) (bs : List Binding) (ss : List StateSchema)
    (h : split_components modules verbose = .ok (ts, bs, ss)) :
    ∀ t ∈ ts, ∀ k < t.id, ∃ t' ∈ ts, t'.id = k := by
  unfold split_components at h
  cases hm : processModules ⟨[], [], [], [], 0, 0⟩ modules with
  | error e => rw [hm] at h; cases h
  | ok acc =>
    rw [hm] at h
    simp only [Except.ok.injEq, Prod.mk.injEq] at h
    obtain ⟨hts, -, -⟩ := h
    have hinv : TemplateIdsInv acc :=
      processModules_inv hm ⟨by simp, by simp, by simp⟩
    obtain ⟨hbelow, hdense, -⟩ := hinv
    intro t ht k hk
    subst hts
    exact hdense k (lt_trans hk (hbelow t ht))

/-- Witness for the amended C8 at two components with distinct html, whose
templates receive the dense unique ids 0 and 1: below the produced id 1,
the id 0 is also produced. -/
theorem split_ids_dense_witness :
    ∃ t' ∈ [(⟨0, "<p>x</p>", [], "<p>x</p>"⟩ : Template),
            (⟨1, "<p>y</p>", [], "<p>y</p>"⟩ : Template)], t'.id = 0 :=
  split_ids_dense
    [⟨"m.tsx", [], [],
      [⟨"A", [], [], "<p>x</p>", []⟩, ⟨"B", [], [], "<p>y</p>", []⟩], "h"⟩]
    false _ [] [⟨"A", []⟩, ⟨"B", []⟩] (by rfl)
    ⟨1, "<p>y</p>", [], "<p>y</p>"⟩ (by simp) 0 (by decide)

end DxSplitter
